import Mathlib

/-!
Verification of the Timesketch API v1 resource layer
(`timesketch/api/v1/resources.py`).

The Python handlers are shallowly embedded as pure Lean functions.
Conventions used throughout this development:

* JSON values that the Python code stores as serialized strings
  (`json.dumps` / `json.loads`) are represented directly by their parsed
  form (the `Json` inductive below); serialization round-trips are the
  identity under this representation.
* Python `None` is represented by `Json.null` (or `Option.none` where a
  database lookup is being modelled).
* Python truthiness is modelled explicitly by `Json.truthy` and the
  `py...` helpers; in particular the truthiness of string literals and
  of tuples is spelled out where the source relies on it.
* Database tables are association lists inside a `Db` record; handlers
  take the database plus the acting user and return a response tag
  together with any updated state, mirroring the commits performed by
  the source.
* Uncaught Python exceptions (e.g. an attribute access on `None` after
  a failed `query.get`) are modelled by the `serverError` response tag.
-/

set_option autoImplicit false

namespace Timesketch

/-- HTTP status codes used by the module (timesketch.lib.definitions). -/
def HTTP_STATUS_CODE_OK : Nat := 200

/-- HTTP 201, returned by successful creating POST handlers. -/
def HTTP_STATUS_CODE_CREATED : Nat := 201

/-- HTTP 400, malformed input. -/
def HTTP_STATUS_CODE_BAD_REQUEST : Nat := 400

/-- HTTP 403, authenticated but lacking permission. -/
def HTTP_STATUS_CODE_FORBIDDEN : Nat := 403

/-- HTTP 404, entity absent or sketch mismatch. -/
def HTTP_STATUS_CODE_NOT_FOUND : Nat := 404

/-- Parsed JSON values.  The Python code passes filters and query DSL
around either as `dict`s or as their `json.dumps` serialization; both
are represented by this type, identifying a serialized string with its
parse. -/
inductive Json where
  | null
  | bool (b : Bool)
  | num (n : Int)
  | str (s : String)
  | arr (xs : List Json)
  | obj (kvs : List (String × Json))

/-- `d.get(k, None)` on a Python dict: first value bound to `k`, if any.
On non-dict values the handlers under study never call `.get`. -/
def Json.get : Json → String → Option Json
  | .obj kvs, k => kvs.lookup k
  | _, _ => none

/-- Replace the binding of `k` in an association list (Python dict item
assignment `d[k] = v`); appends when the key is absent. -/
def setAssoc (kvs : List (String × Json)) (k : String) (v : Json) : List (String × Json) :=
  match kvs with
  | [] => [(k, v)]
  | (k0, v0) :: rest =>
    if k0 == k then (k0, v) :: rest else (k0, v0) :: setAssoc rest k v

/-- Python dict item assignment `d[k] = v` (no-op on non-dict values,
which the handlers under study never mutate this way). -/
def Json.set : Json → String → Json → Json
  | .obj kvs, k, v => .obj (setAssoc kvs k v)
  | j, _, _ => j

/-- Python truthiness of a JSON value: `None`, `False`, `0`, `""`, `[]`
and `\x7b\x7d` are falsy, everything else truthy. -/
def Json.truthy : Json → Bool
  | .null => false
  | .bool b => b
  | .num n => n != 0
  | .str s => s != ""
  | .arr xs => !xs.isEmpty
  | .obj kvs => !kvs.isEmpty

/-- Truthiness of `d.get(k, None)`: falsy when the key is absent
(`None`) and otherwise the truthiness of the bound value. -/
def pyGetTruthy (j : Json) (k : String) : Bool :=
  match j.get k with
  | none => false
  | some v => v.truthy

/-- Python truthiness of a string: non-empty strings are truthy. -/
def pyStrTruthy (s : String) : Bool := s != ""

/-- Whether the first character list is a leading segment of the
second. -/
def startsWithChars : List Char → List Char → Bool
  | [], _ => true
  | _ :: _, [] => false
  | n :: ns, h :: hs => n == h && startsWithChars ns hs

/-- Whether the first character list occurs contiguously inside the
second. -/
def containsChars (needle : List Char) : List Char → Bool
  | [] => needle.isEmpty
  | h :: hs => startsWithChars needle (h :: hs) || containsChars needle hs

/-- Python substring containment `needle in hay`. -/
def pySubstr (needle hay : String) : Bool :=
  containsChars needle.data hay.data

/-- Python truthiness of a tuple: a tuple is truthy iff it is
non-empty, irrespective of its elements. -/
def pyTupleTruthy (elems : List Json) : Bool := !elems.isEmpty

/-- Truthiness of an optional integer form field
(`IntegerField.data`): `None` and `0` are falsy. -/
def pyOptNatTruthy : Option Nat → Bool
  | none => false
  | some n => n != 0

/-- User identifier (primary key of the user table). -/
abbrev UserId := Nat

/-- A Sketch row together with its ACL grants (timesketch.models.sketch.Sketch
with its AccessControlMixin): per-user read/write/delete grant sets. -/
structure Sketch where
  id : Nat
  readers : List UserId
  writers : List UserId
  deleters : List UserId
deriving Repr, DecidableEq

/-- A View row (timesketch.models.sketch.View).  `query_filter` and
`query_dsl` hold the parse of the serialized JSON the column stores.
An empty `name` marks the per-(sketch, user) transient state view. -/
structure View where
  id : Nat
  name : String
  sketch_id : Nat
  user : UserId
  query_string : String
  query_filter : Json
  query_dsl : Json
  status : String

/-- A SearchTemplate row (timesketch.models.sketch.SearchTemplate). -/
structure SearchTemplate where
  id : Nat
  name : String
  user : UserId
  query_string : String
  query_filter : Json
  query_dsl : Json

/-- A Story row (timesketch.models.story.Story). -/
structure Story where
  id : Nat
  title : String
  content : String
  sketch_id : Nat
  user : UserId
deriving Repr, DecidableEq

/-- A Timeline row (timesketch.models.sketch.Timeline): binds a sketch
to a search index. -/
structure TimelineRec where
  id : Nat
  name : String
  sketch_id : Nat
  user : UserId
  index_name : String
deriving Repr, DecidableEq

/-- A SearchIndex row (timesketch.models.sketch.SearchIndex), with its
current status and the timestamp (in epoch seconds) of its last update. -/
structure SearchIndexRec where
  index_name : String
  name : String
  user : UserId
  status : String
  updated_at : Int
deriving Repr, DecidableEq

/-- The relational tables the embedded handlers touch. -/
structure Db where
  sketches : List Sketch
  views : List View
  searchtemplates : List SearchTemplate
  stories : List Story
  timelines : List TimelineRec
  searchindices : List SearchIndexRec

/-- Response tags of the embedded handlers.  `serverError` models an
uncaught Python exception (e.g. attribute access on the `None` returned
by a failed `query.get`). -/
inductive Rsp where
  | ok
  | created
  | badRequest
  | notFound
  | forbidden
  | serverError
deriving Repr, DecidableEq

/-- `Sketch.query.get_with_acl(sketch_id)`: resolve a sketch by id,
aborting with not-found unless the acting user holds read access
(spec section 4.2; the ACL-aware lookup used by every sketch-scoped
handler).  `none` models the 404 abort. -/
def getSketchWithAcl (db : Db) (uid sid : Nat) : Option Sketch :=
  match db.sketches.find? (fun s => s.id == sid) with
  | none => none
  | some s => if s.readers.contains uid then some s else none

/-- Data carried by a SaveViewForm (timesketch.lib.forms.SaveViewForm):
the submitted name, query string, structured filter, raw query DSL, an
optional id of an existing template to derive from, and a flag asking
for a new template to be created. -/
structure SaveViewForm where
  name : String
  query : String
  filter : Json
  dsl : Json
  from_searchtemplate_id : Option Nat
  new_searchtemplate : Bool

/-- The four view parameters threaded through
`ViewListResource.create_view_from_form` (lines 382-386):
`view_name`, `query_string`, `query_filter`, `query_dsl`.  The
source's transient tuple wrapping of the filter (trailing comma, lines
385-391) is unwrapped immediately and has no net effect. -/
structure ViewParams where
  view_name : String
  query_string : String
  query_filter : Json
  query_dsl : Json

/-- Lines 397-411 of `create_view_from_form`: when the form carries a
truthy `from_searchtemplate_id`, overwrite all four view parameters
with the stored values of the referenced template.  The source's
`SearchTemplate.query.get` returns `None` for an unknown id and the
following attribute accesses raise: modelled by `none`.  The trailing
tuple unwrap (lines 406-411) again has no net effect. -/
def applyTemplateDerivation (templates : List SearchTemplate) (form : SaveViewForm)
    (p : ViewParams) : Option (ViewParams × Option SearchTemplate) :=
  if pyOptNatTruthy form.from_searchtemplate_id then
    let template_id := form.from_searchtemplate_id.getD 0
    match templates.find? (fun t => t.id == template_id) with
    | none => none
    | some t =>
      some (⟨t.name, t.query_string, t.query_filter, t.query_dsl⟩, some t)
  else
    some (p, none)

/-- Lines 416-418 of `create_view_from_form`: parse the current filter,
and when its `indices` entry is present and Python-truthy overwrite it
with the wildcard sentinel string `_all`; re-serialization (line 421)
is the identity under the `Json` representation. -/
def normalizeTemplateFilter (f : Json) : Json :=
  if pyGetTruthy f "indices" then f.set "indices" (.str "_all") else f

/-- Lines 415-432 of `create_view_from_form`: when the form asks for a
new search template, normalize the current filter, persist a new
template built from the current view parameters, and make it both the
view's template back-reference and the view's filter.  Returns the
updated parameters, the template back-reference, and the created
template (if any). -/
def applyNewSearchTemplate (uid : UserId) (freshTemplateId : Nat) (form : SaveViewForm)
    (p : ViewParams) (st : Option SearchTemplate) :
    ViewParams × Option SearchTemplate × Option SearchTemplate :=
  if form.new_searchtemplate then
    let query_filter := normalizeTemplateFilter p.query_filter
    let t : SearchTemplate :=
      ⟨freshTemplateId, p.view_name, uid, p.query_string, query_filter, p.query_dsl⟩
    ({ p with query_filter := query_filter }, some t, some t)
  else
    (p, st, none)

/-- Result of `create_view_from_form`: the persisted view, its template
back-reference, and the freshly created template when one was
requested. -/
structure CreateViewResult where
  view : View
  backref : Option SearchTemplate
  createdTemplate : Option SearchTemplate

/-- `ViewListResource.create_view_from_form` (lines 371-447): start
from the submitted form values, apply template derivation (lines
397-411), then optional new-template creation (lines 413-432), and
persist the resulting view bound to the sketch and acting user (lines
434-445).  `none` models the uncaught exception after a failed
template lookup. -/
def create_view_from_form (sketch : Sketch) (uid : UserId) (form : SaveViewForm)
    (templates : List SearchTemplate) (freshViewId freshTemplateId : Nat) :
    Option CreateViewResult :=
  let p0 : ViewParams := ⟨form.name, form.query, form.filter, form.dsl⟩
  match applyTemplateDerivation templates form p0 with
  | none => none
  | some (p1, st1) =>
    let (p2, st2, created) := applyNewSearchTemplate uid freshTemplateId form p1 st1
    some ⟨⟨freshViewId, p2.view_name, sketch.id, uid,
           p2.query_string, p2.query_filter, p2.query_dsl, "new"⟩, st2, created⟩

/-- One entry of a document's embedded `timesketch_label` list, as
written by the annotation path (`ElasticsearchDataStore.set_label`):
the owning sketch id and the label name. -/
structure TsLabel where
  sketch_id : Nat
  name : String
deriving Repr, DecidableEq

/-- The slice of a search hit that the Explore post-processing loop
(lines 645-655) reads and writes: the `selected` marker, the
normalized `label` field of `_source`, and the raw multi-sketch
`timesketch_label` field of `_source` (`none` when the document
carries no labels, which is the source's `KeyError` case). -/
structure Hit where
  selected : Bool
  label : List String
  timesketch_label : Option (List TsLabel)
deriving Repr, DecidableEq

/-- Lines 645-655 of `ExploreResource.post`, for one hit: clear
`selected` and `label`, then copy into `label` the names of exactly
those embedded labels whose `sketch_id` equals the current sketch's
id, and delete the `timesketch_label` field; a document without a
`timesketch_label` field raises `KeyError`, which is swallowed after
the two resets. -/
def processHit (sketchId : Nat) (e : Hit) : Hit :=
  let e1 : Hit := { e with selected := false, label := [] }
  match e1.timesketch_label with
  | none => e1
  | some tls =>
    { e1 with
      label := (tls.filter (fun l => sketchId == l.sketch_id)).map TsLabel.name,
      timesketch_label := none }

/-- Lines 632-636 of `ExploreResource.post`:
`if not (form.query.data, query_filter.get(u'star'),
query_filter.get(u'events'), query_dsl): abort(400)`.
The operand of `not` is a 4-tuple; its truthiness per `pyTupleTruthy`
ignores the elements. -/
def exploreCriteriaAborts (query : Json) (star events : Option Json) (dsl : Json) : Bool :=
  !(pyTupleTruthy [query, star.getD Json.null, events.getD Json.null, dsl])

/-- Lines 721-725 of `AggregationResource.post`: the same selection
check over a 3-tuple `(form.query.data, query_filter.get(u'star'),
query_filter.get(u'events'))`. -/
def aggregationCriteriaAborts (query : Json) (star events : Option Json) : Bool :=
  !(pyTupleTruthy [query, star.getD Json.null, events.getD Json.null])

/-- Data carried by an ExploreForm (timesketch.lib.forms.ExploreForm):
query string, structured filter, raw query DSL. -/
structure ExploreForm where
  query : String
  filter : Json
  dsl : Json

/-- Observable outcome of `ExploreResource.post`: HTTP status, whether
`self.datastore.search` was called, the returned event objects, and
whether the per-(sketch, user) state view was upserted. -/
structure ExploreResponse where
  status : Nat
  searchExecuted : Bool
  objects : List Hit
  stateViewSaved : Bool
deriving Repr, DecidableEq

/-- `ExploreResource.post` (lines 600-687).  `searchResult` stands for
the hit list the external datastore returns for the submitted query;
the index-resolution prologue (lines 619-629) only computes the
`indices` argument forwarded to that search and is opaque to the
properties proved below, as is the response metadata (lines 667-681). -/
def exploreResourcePost (db : Db) (uid sid : Nat) (formValid : Bool) (form : ExploreForm)
    (searchResult : List Hit) : ExploreResponse :=
  match getSketchWithAcl db uid sid with
  | none => ⟨HTTP_STATUS_CODE_NOT_FOUND, false, [], false⟩
  | some sketch =>
    if formValid then
      let query_dsl := form.dsl
      let query_filter := form.filter
      if exploreCriteriaAborts (Json.str form.query) (query_filter.get "star")
          (query_filter.get "events") query_dsl then
        ⟨HTTP_STATUS_CODE_BAD_REQUEST, false, [], false⟩
      else
        ⟨HTTP_STATUS_CODE_OK, true, searchResult.map (processHit sketch.id), true⟩
    else
      ⟨HTTP_STATUS_CODE_BAD_REQUEST, false, [], false⟩

/-- Data carried by an AggregationForm: query string, filter, DSL and
the aggregation algorithm name. -/
structure AggregationForm where
  query : String
  filter : Json
  dsl : Json
  aggtype : String

/-- Observable outcome of `AggregationResource.post`: HTTP status and
whether one of the named aggregation algorithms was executed against
the datastore. -/
structure AggregationResponse where
  status : Nat
  aggregationExecuted : Bool
deriving Repr, DecidableEq

/-- `AggregationResource.post` (lines 690-746): resolve the sketch,
validate the form, run the selection-criteria check (lines 721-725),
then dispatch on the aggregation name, rejecting unknown names. -/
def aggregationResourcePost (db : Db) (uid sid : Nat) (formValid : Bool)
    (form : AggregationForm) : AggregationResponse :=
  match getSketchWithAcl db uid sid with
  | none => ⟨HTTP_STATUS_CODE_NOT_FOUND, false⟩
  | some _ =>
    if formValid then
      if aggregationCriteriaAborts (Json.str form.query) (form.filter.get "star")
          (form.filter.get "events") then
        ⟨HTTP_STATUS_CODE_BAD_REQUEST, false⟩
      else if form.aggtype == "heatmap" then ⟨HTTP_STATUS_CODE_OK, true⟩
      else if form.aggtype == "histogram" then ⟨HTTP_STATUS_CODE_OK, true⟩
      else ⟨HTTP_STATUS_CODE_BAD_REQUEST, false⟩
    else
      ⟨HTTP_STATUS_CODE_BAD_REQUEST, false⟩

/-- Arguments of one `self.datastore.set_label` call mirrored into the
search datastore by `EventAnnotationResource.post`. -/
structure SetLabelCall where
  searchindex_id : String
  event_id : String
  event_type : String
  sketch_id : Nat
  user_id : UserId
  label : String
  toggle : Bool
deriving Repr, DecidableEq

/-- Line 865 of `EventAnnotationResource.post`:
`if u'__ts_star' or u'__ts_hidden' in <the submitted text>:`.
Python parses this as `(u'__ts_star') or (u'__ts_hidden' in data)`:
the left operand is the truthiness of the non-empty string literal
`__ts_star`, the right operand is substring containment of
`__ts_hidden` in the submitted text.  `toggle` starts `False` (line
864) and is set `True` when the condition holds (line 866). -/
def labelToggle (annotationData : String) : Bool :=
  if pyStrTruthy "__ts_star" || pySubstr "__ts_hidden" annotationData then
    true
  else
    false

/-- Per-event result of the annotation loop: the comment marker call,
the label mirror call, or the malformed-type rejection. -/
inductive AnnotationAction where
  | commentAdded (call : SetLabelCall)
  | labelAdded (call : SetLabelCall)
  | badRequest
deriving Repr, DecidableEq

/-- Lines 851-871 of `EventAnnotationResource.post`, for one event
reference: dispatch on the annotation type (`u'comment' in
annotation_type` / `u'label' in annotation_type` are substring
checks), producing the mirrored `set_label` call; a comment always
writes the fixed `__ts_comment` marker with `toggle=False`, a label
writes the submitted text with the toggle computed by `labelToggle`;
any other type aborts with 400. -/
def annotateEvent (sketch : Sketch) (uid : UserId) (annotation_type annotationData : String)
    (searchindex_id event_id event_type : String) : AnnotationAction :=
  if pySubstr "comment" annotation_type then
    .commentAdded ⟨searchindex_id, event_id, event_type, sketch.id, uid, "__ts_comment", false⟩
  else if pySubstr "label" annotation_type then
    .labelAdded ⟨searchindex_id, event_id, event_type, sketch.id, uid, annotationData,
      labelToggle annotationData⟩
  else
    .badRequest

/-- Split a character list on a separator character; always returns at
least one (possibly empty) segment. -/
def splitOnChar (c : Char) : List Char → List (List Char)
  | [] => [[]]
  | x :: xs =>
    match splitOnChar c xs with
    | [] => if x == c then [[], []] else [[x]]
    | y :: ys => if x == c then [] :: y :: ys else (x :: y) :: ys

/-- `os.path.splitext(...)` followed by `.lstrip(u'.')` (lines
910-911): the text after the last dot of the filename, empty when the
filename contains no dot (splitext's special-casing of a leading dot
is irrelevant to the uploads considered here). -/
def fileExtension (filename : String) : String :=
  match splitOnChar '.' filename.data with
  | [] => ""
  | [_] => ""
  | parts => ⟨parts.getLastD []⟩

/-- Rejoin dot-separated segments. -/
def joinDots : List (List Char) → List Char
  | [] => []
  | [p] => p
  | p :: ps => p ++ '.' :: joinDots ps

/-- The `_filename` root from `os.path.splitext` (line 910): the
filename with its last dot-separated extension removed. -/
def fileStem (filename : String) : String :=
  match splitOnChar '.' filename.data with
  | [] => filename
  | [_] => filename
  | parts => ⟨joinDots parts.dropLast⟩

/-- `_filename.rstrip(u'.')` (line 912): strip trailing dots. -/
def rstripDots (s : String) : String :=
  ⟨(s.data.reverse.dropWhile (fun c => c == '.')).reverse⟩

/-- The fixed extension-to-task mapping of `UploadFileResource.post`
(lines 903-906); the values name the two task entry points in
timesketch.lib.tasks. -/
def task_directory : List (String × String) :=
  [("plaso", "run_plaso"), ("csv", "run_csv")]

/-- Modelled from the spec: `UploadFileForm` lives in
timesketch.lib.forms, which is not under src/.  Per spec sections 4.6
and 8, an upload whose file extension has no entry in the
extension-to-task mapping must fail validation before any state is
created ("unrecognized extensions have no mapping and must fail before
dispatch", "produces no SearchIndex record in 'processing' state");
the handler reads the rejection message from `form.errors[u'file'][0]`
(line 970), i.e. validation is attached to the file field.  So the
form validates exactly the mapped extensions `plaso` and `csv`. -/
def uploadFormValid (extension : String) : Bool :=
  extension == "plaso" || extension == "csv"

/-- Observable outcome of `UploadFileResource.post`: response tag, the
saved upload path, the created SearchIndex row (with its status), the
created Timeline row, and the task ids dispatched to the task queue. -/
structure UploadResponse where
  rsp : Rsp
  savedFile : Option String
  createdSearchIndex : Option SearchIndexRec
  createdTimeline : Option TimelineRec
  dispatchedTasks : List String
deriving Repr, DecidableEq

/-- `UploadFileResource.post` (lines 882-971).  `freshFilename` and
`freshIndexName` stand for the two generated UUIDs (lines 923-924) and
`freshTimelineId` for the new timeline's primary key; `now` is the
creation timestamp.  On validation failure (or uploads disabled) the
handler raises `ApiHTTPError` with status 400 before touching any
state.  On the success path the file is saved, the SearchIndex row is
created with status `processing` and full grants, a timeline is
attached when a writable sketch was named, and the matching task is
dispatched with `task_id = index_name`; a missing task mapping would
raise at line 956 (`serverError`) after those writes. -/
def uploadFilePost (db : Db) (uploadEnabled : Bool) (uid : UserId)
    (fileFilename formName : String) (sketchId : Option Nat)
    (uploadFolder freshFilename freshIndexName : String) (freshTimelineId : Nat)
    (now : Int) : UploadResponse :=
  let file_extension := fileExtension fileFilename
  if uploadFormValid file_extension && uploadEnabled then
    let timeline_name := if formName != "" then formName else rstripDots (fileStem fileFilename)
    if pyOptNatTruthy sketchId && (getSketchWithAcl db uid (sketchId.getD 0)).isNone then
      -- a named but inaccessible sketch makes get_with_acl abort 404
      ⟨.notFound, none, none, none, []⟩
    else
      let sketch : Option Sketch :=
        if pyOptNatTruthy sketchId then getSketchWithAcl db uid (sketchId.getD 0) else none
      let file_path := uploadFolder ++ "/" ++ freshFilename
      let searchindex : SearchIndexRec :=
        ⟨freshIndexName, timeline_name, uid, "processing", now⟩
      let timeline : Option TimelineRec :=
        match sketch with
        | some sk =>
          if sk.writers.contains uid then
            some ⟨freshTimelineId, timeline_name, sk.id, uid, freshIndexName⟩
          else
            none
        | none => none
      match task_directory.lookup file_extension with
      | none => ⟨.serverError, some file_path, some searchindex, timeline, []⟩
      | some _ => ⟨.created, some file_path, some searchindex, timeline, [freshIndexName]⟩
  else
    ⟨.badRequest, none, none, none, []⟩

/-- `.seconds` of a Python `datetime.timedelta` holding `delta` whole
seconds: timedelta normalizes to a floor day count and a non-negative
seconds-within-day component, the Euclidean remainder modulo 86400. -/
def timedeltaSeconds (delta : Int) : Int := delta % 86400

/-- Lines 994-1006 of `TaskResource.get`, for one processing
SearchIndex of the acting user: query the task queue by job id; when
the job state is `PENDING`, compute
`(search_index.updated_at - datetime.datetime.now()).seconds` and set
the status to `timeout` when it exceeds the threshold. -/
def pollSearchIndex (celeryState : String → String) (now threshold : Int)
    (si : SearchIndexRec) : SearchIndexRec :=
  if celeryState si.index_name == "PENDING" then
    if timedeltaSeconds (si.updated_at - now) > threshold then
      { si with status := "timeout" }
    else
      si
  else
    si

/-- `TaskResource.get` (lines 981-1008), restricted to its effect on
SearchIndex statuses: every index currently in status `processing` and
owned by the acting user is polled (default threshold
`CELERY_TASK_TIMEOUT = 7200`); all other rows are untouched. -/
def taskResourceGet (db : Db) (uid : UserId) (celeryState : String → String)
    (now threshold : Int) : List SearchIndexRec :=
  db.searchindices.map (fun si =>
    if si.status == "processing" && si.user == uid then
      pollSearchIndex celeryState now threshold si
    else
      si)

/-- `StoryResource.get` (lines 1053-1078): resolve the sketch through
the ACL-aware lookup, fetch the story, return not-found on a sketch
mismatch, and otherwise the story together with the `is_editable` meta
flag, true exactly when the acting user is the author. -/
def storyResourceGet (db : Db) (uid sid story_id : Nat) : Rsp × Option (Story × Bool) :=
  match getSketchWithAcl db uid sid with
  | none => (.notFound, none)
  | some sketch =>
    match db.stories.find? (fun st => st.id == story_id) with
    | none => (.serverError, none)
    | some story =>
      if story.sketch_id != sketch.id then
        (.notFound, none)
      else
        (.ok, some (story, story.user == uid))

/-- In-place update of one story row (lines 1099-1102). -/
def updateStory (stories : List Story) (story_id : Nat) (title content : String) :
    List Story :=
  stories.map (fun st =>
    if st.id == story_id then { st with title := title, content := content } else st)

/-- `StoryResource.post` (lines 1080-1104): after form validation and
the ACL-aware sketch lookup, a sketch mismatch aborts not-found;
otherwise the story's title and content are overwritten from the form
and committed, and 201 is returned. -/
def storyResourcePost (db : Db) (uid sid story_id : Nat) (formValid : Bool)
    (title content : String) : Rsp × Db :=
  if formValid then
    match getSketchWithAcl db uid sid with
    | none => (.notFound, db)
    | some sketch =>
      match db.stories.find? (fun st => st.id == story_id) with
      | none => (.serverError, db)
      | some story =>
        if story.sketch_id != sketch.id then
          (.notFound, db)
        else
          (.created, { db with stories := updateStory db.stories story_id title content })
  else
    (.badRequest, db)

/-- `ViewResource.get` (lines 483-517): sketch-mismatch check first
(not-found), then the transient state-view ownership check (an
empty-named view of another user is forbidden), then the soft-delete
check (an empty 200 response), and finally the view itself.  The
filter-attribute backfill of line 513 (`view.validate_filter()`, model
code outside src/) only normalizes the returned filter and is elided:
every property proved below resolves on an earlier branch. -/
def viewResourceGet (db : Db) (uid sid view_id : Nat) : Rsp × List View :=
  match getSketchWithAcl db uid sid with
  | none => (.notFound, [])
  | some sketch =>
    match db.views.find? (fun v => v.id == view_id) with
    | none => (.serverError, [])
    | some view =>
      if view.sketch_id != sketch.id then
        (.notFound, [])
      else if view.name == "" && view.user != uid then
        (.forbidden, [])
      else if view.status == "deleted" then
        (.ok, [])
      else
        (.ok, [view])

/-- `ViewResource.delete` (lines 519-538): sketch-mismatch check first
(not-found), then the write-permission check (forbidden), then the
soft delete. -/
def viewResourceDelete (db : Db) (uid sid view_id : Nat) : Rsp × Db :=
  match getSketchWithAcl db uid sid with
  | none => (.notFound, db)
  | some sketch =>
    match db.views.find? (fun v => v.id == view_id) with
    | none => (.serverError, db)
    | some view =>
      if view.sketch_id != sketch.id then
        (.notFound, db)
      else if !(sketch.writers.contains uid) then
        (.forbidden, db)
      else
        (.ok, { db with views := db.views.map (fun v =>
          if v.id == view_id then { v with status := "deleted" } else v) })

/-- `ViewResource.post` (lines 540-567): after form validation, fetch
the sketch (ACL-aware) and the view, overwrite the view's query
string, filter, DSL, user and sketch from the request — with no check
that the view belonged to the URL's sketch — blank the query string
when a raw DSL was submitted, commit, and return 201. -/
def viewResourcePost (db : Db) (uid sid view_id : Nat) (formValid : Bool)
    (form : SaveViewForm) : Rsp × Db :=
  if formValid then
    match getSketchWithAcl db uid sid with
    | none => (.notFound, db)
    | some sketch =>
      match db.views.find? (fun v => v.id == view_id) with
      | none => (.serverError, db)
      | some _ =>
        (.created, { db with views := db.views.map (fun v =>
          if v.id == view_id then
            let v1 := { v with
              query_string := form.query,
              query_filter := form.filter,
              query_dsl := form.dsl,
              user := uid,
              sketch_id := sketch.id }
            if form.dsl.truthy then { v1 with query_string := "" } else v1
          else v) })
  else
    (.badRequest, db)

/-- `TimelineResource.get` (lines 1176-1194): sketch-mismatch check
first (not-found), then the read-permission check (forbidden), then
the timeline itself. -/
def timelineResourceGet (db : Db) (uid sid timeline_id : Nat) : Rsp × List TimelineRec :=
  match getSketchWithAcl db uid sid with
  | none => (.notFound, [])
  | some sketch =>
    match db.timelines.find? (fun t => t.id == timeline_id) with
    | none => (.serverError, [])
    | some timeline =>
      if timeline.sketch_id != sketch.id then
        (.notFound, [])
      else if !(sketch.readers.contains uid) then
        (.forbidden, [])
      else
        (.ok, [timeline])

/-- `TimelineResource.delete` (lines 1196-1216): sketch-mismatch check
first (not-found), then the write-permission check (forbidden), then
removal of the timeline from the sketch. -/
def timelineResourceDelete (db : Db) (uid sid timeline_id : Nat) : Rsp × Db :=
  match getSketchWithAcl db uid sid with
  | none => (.notFound, db)
  | some sketch =>
    match db.timelines.find? (fun t => t.id == timeline_id) with
    | none => (.serverError, db)
    | some timeline =>
      if timeline.sketch_id != sketch.id then
        (.notFound, db)
      else if !(sketch.writers.contains uid) then
        (.forbidden, db)
      else
        (.ok, { db with timelines := db.timelines.filter (fun t => t.id != timeline_id) })

/-- A concrete database used when exercising the sketch-mismatch
paths: sketch 1 is readable and writable by user 1, but view 9
belongs to sketch 2, story 5 to sketch 3 and timeline 4 to sketch
2. -/
def dbMismatch : Db :=
  ⟨[⟨1, [1], [1], [1]⟩],
    [⟨9, "v", 2, 1, "q", Json.obj [], Json.null, "new"⟩],
    [],
    [⟨5, "t0", "c0", 3, 1⟩],
    [⟨4, "tl", 2, 1, "idx"⟩],
    []⟩

/-! ## Helper lemmas -/

/-- The ACL-aware sketch lookup only returns the sketch with the
requested id. -/
theorem getSketchWithAcl_id {db : Db} {uid sid : Nat} {sketch : Sketch}
    (h : getSketchWithAcl db uid sid = some sketch) : sketch.id = sid := by
  unfold getSketchWithAcl at h
  cases hf : db.sketches.find? (fun s => s.id == sid) with
  | none => rw [hf] at h; cases h
  | some s =>
    rw [hf] at h
    have hid : s.id = sid := by simpa using List.find?_some hf
    simp at h
    obtain ⟨-, rfl⟩ := h
    exact hid

/-- Looking up a key right after setting it returns the new value. -/
theorem lookup_setAssoc (kvs : List (String × Json)) (k : String) (v : Json) :
    (setAssoc kvs k v).lookup k = some v := by
  induction kvs with
  | nil => simp [setAssoc, List.lookup]
  | cons kv rest ih =>
    obtain ⟨k0, v0⟩ := kv
    by_cases hk : k0 = k
    · subst hk
      simp [setAssoc, List.lookup]
    · have hkk : (k == k0) = false := beq_eq_false_iff_ne.mpr (Ne.symm hk)
      simp [setAssoc, List.lookup, hk, hkk, ih]

/-- Setting a present key makes a following get return the new
value. -/
theorem get_set_self (f : Json) (k : String) (v : Json)
    (h : (f.get k).isSome) : (f.set k v).get k = some v := by
  cases f <;> simp [Json.get, Json.set] at h ⊢
  exact lookup_setAssoc _ k v

/-- The selection-criteria guard of Explore can never fire: the
operand of `not` is a non-empty tuple, which is always truthy. -/
theorem exploreCriteriaAborts_false (q : Json) (s e : Option Json) (d : Json) :
    exploreCriteriaAborts q s e d = false := rfl

/-- The selection-criteria guard of Aggregation can never fire, for
the same reason. -/
theorem aggregationCriteriaAborts_false (q : Json) (s e : Option Json) :
    aggregationCriteriaAborts q s e = false := rfl

/-- Per-hit specification of the Explore label post-processing: the
raw multi-sketch field is stripped, and every surviving label name
stems from an embedded label of the current sketch. -/
theorem processHit_spec (sid : Nat) (h0 : Hit) :
    (processHit sid h0).timesketch_label = none ∧
    ∀ n ∈ (processHit sid h0).label,
      ∃ l ∈ h0.timesketch_label.getD [], l.sketch_id = sid ∧ l.name = n := by
  unfold processHit
  cases htl : h0.timesketch_label with
  | none => simp [htl]
  | some tls =>
    simp [htl]
    intro n l hl hsid hname
    exact ⟨l, hl, hsid.symm, hname⟩

/-- C1: for every Explore request on a sketch, every label name
contained in any returned event object belongs to the sketch
identified in the request path — it stems from an embedded label whose
`sketch_id` equals the path sketch's id, labels of other sketches
having been removed — and the original multi-sketch `timesketch_label`
field is stripped from each returned event. -/
theorem C1_explore_labels_scoped_to_sketch
    (db : Db) (uid sid : Nat) (formValid : Bool) (form : ExploreForm)
    (searchResult : List Hit) (e : Hit)
    (he : e ∈ (exploreResourcePost db uid sid formValid form searchResult).objects) :
    e.timesketch_label = none ∧
    ∀ n ∈ e.label, ∃ h0 ∈ searchResult, ∃ l ∈ h0.timesketch_label.getD [],
      l.sketch_id = sid ∧ l.name = n := by
  unfold exploreResourcePost at he
  cases hs : getSketchWithAcl db uid sid with
  | none => rw [hs] at he; simp at he
  | some sketch =>
    rw [hs] at he
    cases formValid with
    | false => simp at he
    | true =>
      simp [exploreCriteriaAborts_false] at he
      obtain ⟨h0, hh0, rfl⟩ := he
      have hps := processHit_spec sketch.id h0
      have hid := getSketchWithAcl_id hs
      refine ⟨hps.1, ?_⟩
      intro n hn
      obtain ⟨l, hl, hsl, hln⟩ := hps.2 n hn
      exact ⟨h0, hh0, l, hl, by rw [hsl, hid], hln⟩

/-- Witness for C1: a concrete document carrying labels of sketches 1
and 2, explored from sketch 1, keeps only the sketch-1 label name. -/
theorem C1_explore_labels_scoped_to_sketch_witness :
    (⟨false, ["star"], none⟩ : Hit).timesketch_label = none ∧
    ∀ n ∈ (⟨false, ["star"], none⟩ : Hit).label,
      ∃ h0 ∈ [(⟨true, [], some [⟨1, "star"⟩, ⟨2, "other"⟩]⟩ : Hit)],
        ∃ l ∈ h0.timesketch_label.getD [], l.sketch_id = 1 ∧ l.name = n :=
  C1_explore_labels_scoped_to_sketch
    ⟨[⟨1, [1], [1], [1]⟩], [], [], [], [], []⟩ 1 1 true ⟨"q", Json.obj [], Json.null⟩
    [⟨true, [], some [⟨1, "star"⟩, ⟨2, "other"⟩]⟩] ⟨false, ["star"], none⟩ (by decide)

/-- C2: the claim says a story-update POST by an authenticated
non-author must not modify the story and must not succeed.  The code
has no author check in `StoryResource.post`: with story 5 authored by
user 1 inside sketch 1, an update by user 2 (who holds read access on
the sketch but is not the author) succeeds with 201 and overwrites
both title and content.  This theorem evaluates the handler at that
failing input. -/
theorem C2_story_update_by_non_author_succeeds :
    (storyResourcePost
        ⟨[⟨1, [1, 2], [1, 2], [1]⟩], [], [], [⟨5, "orig", "orig-content", 1, 1⟩], [], []⟩
        2 1 5 true "hacked" "hacked-content").1 = Rsp.created ∧
    (storyResourcePost
        ⟨[⟨1, [1, 2], [1, 2], [1]⟩], [], [], [⟨5, "orig", "orig-content", 1, 1⟩], [], []⟩
        2 1 5 true "hacked" "hacked-content").2.stories
      = [⟨5, "hacked", "hacked-content", 1, 1⟩] ∧
    (2 : UserId) ≠ 1 := by decide

/-- C3: the claim says the mirrored `set_label` call has `toggle=true`
exactly for the starred/hidden markers and `toggle=false` for every
other label text.  Line 865 reads
`if u'__ts_star' or u'__ts_hidden' in <the submitted text>:`, whose
left `or`-operand is the always-truthy string literal `__ts_star`, so
`toggle` is `True` for every label text.  This theorem evaluates the
handler at the failing input `foo`, a text that denotes neither
marker, yet is mirrored with `toggle=true`. -/
theorem C3_label_toggle_always_true :
    labelToggle "foo" = true ∧
    annotateEvent ⟨1, [1], [1], [1]⟩ 1 "label" "foo" "idx1" "ev1" "plaso_event"
      = .labelAdded ⟨"idx1", "ev1", "plaso_event", 1, 1, "foo", true⟩ ∧
    pySubstr "__ts_star" "foo" = false ∧
    pySubstr "__ts_hidden" "foo" = false := by decide

/-- C4: the claim says an Explore or Aggregation request with none of
the four selection criteria is rejected with 400 and no datastore
search runs.  Lines 632-636 and 722-725 test `not (tuple)`, and a
non-empty tuple is always truthy, so the guard never fires: with an
empty query string, no star flag, no event list and no DSL, Explore
still returns 200 and executes the search, and Aggregation still runs
its aggregator.  This theorem evaluates both handlers at that failing
input. -/
theorem C4_empty_criteria_not_rejected :
    (exploreResourcePost ⟨[⟨1, [1], [1], [1]⟩], [], [], [], [], []⟩ 1 1 true
        ⟨"", Json.obj [], Json.null⟩ []).status = HTTP_STATUS_CODE_OK ∧
    (exploreResourcePost ⟨[⟨1, [1], [1], [1]⟩], [], [], [], [], []⟩ 1 1 true
        ⟨"", Json.obj [], Json.null⟩ []).searchExecuted = true ∧
    (aggregationResourcePost ⟨[⟨1, [1], [1], [1]⟩], [], [], [], [], []⟩ 1 1 true
        ⟨"", Json.obj [], Json.null, "heatmap"⟩).status = HTTP_STATUS_CODE_OK ∧
    (aggregationResourcePost ⟨[⟨1, [1], [1], [1]⟩], [], [], [], [], []⟩ 1 1 true
        ⟨"", Json.obj [], Json.null, "heatmap"⟩).aggregationExecuted = true := by
  refine ⟨rfl, rfl, rfl, rfl⟩

/-- C9: the claim says a processing SearchIndex whose task is PENDING
longer than the threshold is transitioned to `timeout` on the next
poll.  Line 1003 computes `updated_at - now` (a negative timedelta)
and line 1005 compares its normalized `.seconds` component, so an
index last updated 80000 seconds ago — far beyond the default 7200
second threshold — yields `(-80000) mod 86400 = 6400 <= 7200` and is
left in `processing`.  This theorem evaluates the poll at that failing
input. -/
theorem C9_stale_pending_index_not_timed_out :
    taskResourceGet ⟨[], [], [], [], [], [⟨"idx", "tl", 1, "processing", 0⟩]⟩ 1
        (fun _ => "PENDING") 80000 7200
      = [⟨"idx", "tl", 1, "processing", 0⟩] ∧
    (80000 : Int) - 0 > 7200 ∧
    timedeltaSeconds (0 - 80000) = 6400 := by
  refine ⟨rfl, by decide, by decide⟩

/-- C5: for every upload request whose file extension is not in the
fixed extension-to-task mapping, the handler fails with
malformed-input before any state is created: no file is saved, no
SearchIndex row is created (in particular none in status
`processing`), no timeline is attached and no asynchronous job is
dispatched.  Form validation is modelled from the spec
(`uploadFormValid`), the form class itself not being under src/. -/
theorem C5_upload_unmapped_extension_rejected_before_dispatch
    (db : Db) (uploadEnabled : Bool) (uid : UserId) (fileFilename formName : String)
    (sketchId : Option Nat) (uploadFolder freshFilename freshIndexName : String)
    (freshTimelineId : Nat) (now : Int)
    (hext : uploadFormValid (fileExtension fileFilename) = false) :
    uploadFilePost db uploadEnabled uid fileFilename formName sketchId uploadFolder
        freshFilename freshIndexName freshTimelineId now
      = ⟨Rsp.badRequest, none, none, none, []⟩ := by
  simp [uploadFilePost, hext]

/-- Witness for C5: an upload of `evidence.zip` (extension `zip`,
unmapped) is rejected with 400 and creates nothing, even with uploads
enabled and a writable sketch named. -/
theorem C5_upload_unmapped_extension_rejected_before_dispatch_witness :
    uploadFormValid (fileExtension "evidence.zip") = false ∧
    uploadFilePost ⟨[⟨1, [1], [1], [1]⟩], [], [], [], [], []⟩ true 1 "evidence.zip" ""
        (some 1) "/uploads" "ffff" "iiii" 7 0
      = ⟨Rsp.badRequest, none, none, none, []⟩ :=
  ⟨by decide,
    C5_upload_unmapped_extension_rejected_before_dispatch
      ⟨[⟨1, [1], [1], [1]⟩], [], [], [], [], []⟩ true 1 "evidence.zip" ""
      (some 1) "/uploads" "ffff" "iiii" 7 0 (by decide)⟩

/-- C6 counterexample: the claim states that whenever a view-create
request references an existing template, the produced view's filter
equals the template's stored filter.  With template 7 storing the
filter with `indices = ["a"]` and a form that both references template
7 and requests a new template, the produced view's filter is the
normalized one (`indices = "_all"`), not the template's stored
value. -/
theorem C6_counterexample_view_filter_differs_from_template :
    ((create_view_from_form ⟨1, [1], [1], [1]⟩ 1
        ⟨"form-name", "form-query", Json.obj [], Json.null, some 7, true⟩
        [⟨7, "t-name", 1, "error", Json.obj [("indices", Json.arr [Json.str "a"])], Json.null⟩]
        100 101).map (fun r => r.view.query_filter))
      = some (Json.obj [("indices", Json.str "_all")]) ∧
    Json.obj [("indices", Json.str "_all")]
      ≠ Json.obj [("indices", Json.arr [Json.str "a"])] := by
  refine ⟨rfl, by simp⟩

/-- C6 (amended): for every view-create request that references an
existing SearchTemplate id, the produced view's name, query string and
raw DSL equal the template's stored values, and its filter equals the
template's stored filter — except that when the request also asks to
create a new template, the filter is the template's filter with its
`indices` normalized.  In all cases none of these four view fields
depends on the values submitted in the form for those fields. -/
theorem C6_template_precedence_amended
    (sketch : Sketch) (uid : UserId) (form : SaveViewForm)
    (templates : List SearchTemplate) (fvid ftid : Nat) (t : SearchTemplate)
    (hid : pyOptNatTruthy form.from_searchtemplate_id = true)
    (ht : templates.find? (fun tt => tt.id == form.from_searchtemplate_id.getD 0)
      = some t) :
    (create_view_from_form sketch uid form templates fvid ftid).map
        (fun r => (r.view.name, r.view.query_string, r.view.query_dsl,
          r.view.query_filter))
      = some (t.name, t.query_string, t.query_dsl,
          if form.new_searchtemplate then normalizeTemplateFilter t.query_filter
          else t.query_filter) := by
  cases hnew : form.new_searchtemplate <;>
    simp [create_view_from_form, applyTemplateDerivation, applyNewSearchTemplate,
      hid, ht, hnew]

/-- Witness for C6 (amended): deriving from template 7 without
requesting a new template copies all four stored values verbatim. -/
theorem C6_template_precedence_amended_witness :
    ((create_view_from_form ⟨1, [1], [1], [1]⟩ 1
        ⟨"form-name", "form-query", Json.obj [], Json.null, some 7, false⟩
        [⟨7, "t-name", 1, "error", Json.obj [("indices", Json.arr [Json.str "a"])], Json.null⟩]
        100 101).map
        (fun r => (r.view.name, r.view.query_string, r.view.query_dsl,
          r.view.query_filter)))
      = some ("t-name", "error", Json.null,
          if false then
            normalizeTemplateFilter (Json.obj [("indices", Json.arr [Json.str "a"])])
          else Json.obj [("indices", Json.arr [Json.str "a"])]) :=
  C6_template_precedence_amended ⟨1, [1], [1], [1]⟩ 1
    ⟨"form-name", "form-query", Json.obj [], Json.null, some 7, false⟩
    [⟨7, "t-name", 1, "error", Json.obj [("indices", Json.arr [Json.str "a"])], Json.null⟩]
    100 101
    ⟨7, "t-name", 1, "error", Json.obj [("indices", Json.arr [Json.str "a"])], Json.null⟩
    (by decide) rfl

/-- A truthy `d.get(k, None)` means the key is present. -/
theorem isSome_of_pyGetTruthy {f : Json} {k : String}
    (h : pyGetTruthy f k = true) : (f.get k).isSome := by
  unfold pyGetTruthy at h
  cases hg : f.get k with
  | none => rw [hg] at h; cases h
  | some v => simp

/-- C7 counterexample: the claim states that for every view-create
request asking for a new template, the current filter's `indices`
field is forced to `_all` in the persisted template.  With a submitted
filter whose `indices` is the empty list — present but Python-falsy —
the spawned template keeps `indices = []`: the forcing is skipped. -/
theorem C7_counterexample_falsy_indices_not_forced :
    ((create_view_from_form ⟨1, [1], [1], [1]⟩ 1
        ⟨"n", "q", Json.obj [("indices", Json.arr [])], Json.null, none, true⟩
        [] 100 101).map (fun r => r.createdTemplate.map (fun t => t.query_filter)))
      = some (some (Json.obj [("indices", Json.arr [])])) ∧
    Json.obj [("indices", Json.arr [])] ≠ Json.obj [("indices", Json.str "_all")] := by
  refine ⟨rfl, by simp⟩

/-- C7 (amended): for every view-create request asking for a new
SearchTemplate, the filter current after template derivation is
parsed, its `indices` field is forced to the wildcard sentinel `_all`
whenever it is present and non-empty (Python-truthy), and the
re-serialized result is both persisted as the new template's filter
and used as the created view's filter; the spawned template's name,
query string and DSL equal the post-derivation values, not the
originally submitted ones. -/
theorem C7_new_template_snapshot_amended
    (sketch : Sketch) (uid : UserId) (form : SaveViewForm)
    (templates : List SearchTemplate) (fvid ftid : Nat)
    (p1 : ViewParams) (st1 : Option SearchTemplate)
    (hnew : form.new_searchtemplate = true)
    (hd : applyTemplateDerivation templates form ⟨form.name, form.query, form.filter, form.dsl⟩
      = some (p1, st1)) :
    (create_view_from_form sketch uid form templates fvid ftid).map
        (fun r => (r.createdTemplate.map
            (fun t => (t.name, t.query_string, t.query_filter, t.query_dsl)),
          r.view.query_filter))
      = some (some (p1.view_name, p1.query_string,
            normalizeTemplateFilter p1.query_filter, p1.query_dsl),
          normalizeTemplateFilter p1.query_filter) ∧
    (pyGetTruthy p1.query_filter "indices" = true →
      (normalizeTemplateFilter p1.query_filter).get "indices" = some (Json.str "_all")) := by
  constructor
  · simp [create_view_from_form, hd, applyNewSearchTemplate, hnew]
  · intro htr
    have hsome := isSome_of_pyGetTruthy htr
    unfold normalizeTemplateFilter
    simp [htr]
    exact get_set_self _ _ _ hsome

/-- Witness for C7 (amended): submitting a filter with
`indices = ["a"]` and asking for a new template persists the
normalized filter (`indices = "_all"`) in both the template and the
view. -/
theorem C7_new_template_snapshot_amended_witness :
    ((create_view_from_form ⟨1, [1], [1], [1]⟩ 1
        ⟨"n", "q", Json.obj [("indices", Json.arr [Json.str "a"])], Json.null, none, true⟩
        [] 100 101).map
        (fun r => (r.createdTemplate.map
            (fun t => (t.name, t.query_string, t.query_filter, t.query_dsl)),
          r.view.query_filter)))
      = some (some ("n", "q",
            normalizeTemplateFilter (Json.obj [("indices", Json.arr [Json.str "a"])]), Json.null),
          normalizeTemplateFilter (Json.obj [("indices", Json.arr [Json.str "a"])])) ∧
    (pyGetTruthy (Json.obj [("indices", Json.arr [Json.str "a"])]) "indices" = true →
      (normalizeTemplateFilter (Json.obj [("indices", Json.arr [Json.str "a"])])).get "indices"
        = some (Json.str "_all")) :=
  C7_new_template_snapshot_amended ⟨1, [1], [1], [1]⟩ 1
    ⟨"n", "q", Json.obj [("indices", Json.arr [Json.str "a"])], Json.null, none, true⟩
    [] 100 101
    ⟨"n", "q", Json.obj [("indices", Json.arr [Json.str "a"])], Json.null⟩ none
    rfl rfl

/-- C8 counterexample: the claim states that every request addressing
a sketch-scoped entity whose stored sketch id differs from the URL's
sketch id yields 404.  The view-update handler performs no such check:
with view 9 stored under sketch 2 and a POST addressed to sketch 1,
the update succeeds with 201 and silently rebinds the view to sketch
1. -/
theorem C8_counterexample_view_update_ignores_mismatch :
    (viewResourcePost
        ⟨[⟨1, [1], [1], [1]⟩], [⟨9, "v", 2, 1, "q", Json.obj [], Json.null, "new"⟩],
          [], [], [], []⟩
        1 1 9 true ⟨"n", "nq", Json.obj [], Json.null, none, false⟩).1 = Rsp.created ∧
    ((viewResourcePost
        ⟨[⟨1, [1], [1], [1]⟩], [⟨9, "v", 2, 1, "q", Json.obj [], Json.null, "new"⟩],
          [], [], [], []⟩
        1 1 9 true ⟨"n", "nq", Json.obj [], Json.null, none, false⟩).2.views.map
          (fun v => v.sketch_id)) = [1] ∧
    Rsp.created ≠ Rsp.notFound ∧ (2 : Nat) ≠ 1 := by
  refine ⟨rfl, rfl, by decide, by decide⟩

/-- C8 (amended): for view-get, view-delete, story-get, story-update,
timeline-get and timeline-delete, a stored sketch id differing from
the URL's sketch id yields not-found — before and regardless of any
write/read permission check, hence never forbidden; the view-update
handler, however, performs no mismatch check at all (see the
counterexample). -/
theorem C8_sketch_mismatch_not_found_amended
    (db : Db) (uid sid vid stid tid : Nat) (sketch : Sketch)
    (view : View) (story : Story) (timeline : TimelineRec)
    (title content : String)
    (hs : getSketchWithAcl db uid sid = some sketch)
    (hv : db.views.find? (fun v => v.id == vid) = some view)
    (hvm : view.sketch_id ≠ sketch.id)
    (hst : db.stories.find? (fun s => s.id == stid) = some story)
    (hstm : story.sketch_id ≠ sketch.id)
    (ht : db.timelines.find? (fun t => t.id == tid) = some timeline)
    (htm : timeline.sketch_id ≠ sketch.id) :
    (viewResourceGet db uid sid vid).1 = Rsp.notFound ∧
    (viewResourceDelete db uid sid vid).1 = Rsp.notFound ∧
    (storyResourceGet db uid sid stid).1 = Rsp.notFound ∧
    (storyResourcePost db uid sid stid true title content).1 = Rsp.notFound ∧
    (timelineResourceGet db uid sid tid).1 = Rsp.notFound ∧
    (timelineResourceDelete db uid sid tid).1 = Rsp.notFound := by
  refine ⟨?_, ?_, ?_, ?_, ?_, ?_⟩ <;>
    simp [viewResourceGet, viewResourceDelete, storyResourceGet, storyResourcePost,
      timelineResourceGet, timelineResourceDelete, hs, hv, hst, ht, hvm, hstm, htm]

/-- Witness for C8 (amended): concrete mismatched view, story and
timeline all yield not-found from the six handlers. -/
theorem C8_sketch_mismatch_not_found_amended_witness :
    (viewResourceGet dbMismatch 1 1 9).1 = Rsp.notFound ∧
    (viewResourceDelete dbMismatch 1 1 9).1 = Rsp.notFound ∧
    (storyResourceGet dbMismatch 1 1 5).1 = Rsp.notFound ∧
    (storyResourcePost dbMismatch 1 1 5 true "t" "c").1 = Rsp.notFound ∧
    (timelineResourceGet dbMismatch 1 1 4).1 = Rsp.notFound ∧
    (timelineResourceDelete dbMismatch 1 1 4).1 = Rsp.notFound :=
  C8_sketch_mismatch_not_found_amended dbMismatch 1 1 9 5 4
    ⟨1, [1], [1], [1]⟩ ⟨9, "v", 2, 1, "q", Json.obj [], Json.null, "new"⟩
    ⟨5, "t0", "c0", 3, 1⟩ ⟨4, "tl", 2, 1, "idx"⟩ "t" "c"
    rfl rfl (by decide) rfl (by decide) rfl (by decide)

/-- C10: for every GET of a single view whose name is the empty string
(the transient per-(sketch, user) state view), a requesting user who
is not the view's owner receives forbidden — even though the ACL-aware
sketch lookup already granted them read access on the sketch — and the
response carries no view content. -/
theorem C10_state_view_forbidden_for_non_owner
    (db : Db) (uid sid vid : Nat) (sketch : Sketch) (view : View)
    (hs : getSketchWithAcl db uid sid = some sketch)
    (hv : db.views.find? (fun v => v.id == vid) = some view)
    (hmatch : view.sketch_id = sketch.id)
    (hname : view.name = "")
    (howner : view.user ≠ uid) :
    viewResourceGet db uid sid vid = (Rsp.forbidden, []) := by
  simp [viewResourceGet, hs, hv, hmatch, hname, howner]

/-- Witness for C10: user 2 holds read access on sketch 1 but is not
the owner of its empty-named state view, and gets forbidden with no
content. -/
theorem C10_state_view_forbidden_for_non_owner_witness :
    viewResourceGet
        ⟨[⟨1, [1, 2], [1, 2], [1]⟩], [⟨9, "", 1, 1, "q", Json.obj [], Json.null, "new"⟩],
          [], [], [], []⟩
        2 1 9 = (Rsp.forbidden, []) :=
  C10_state_view_forbidden_for_non_owner
    ⟨[⟨1, [1, 2], [1, 2], [1]⟩], [⟨9, "", 1, 1, "q", Json.obj [], Json.null, "new"⟩],
      [], [], [], []⟩
    2 1 9 ⟨1, [1, 2], [1, 2], [1]⟩ ⟨9, "", 1, 1, "q", Json.obj [], Json.null, "new"⟩
    rfl rfl rfl rfl (by decide)

end Timesketch
